import Mathlib

/-!
Shallow embedding of the ConvoKit redirection context-selection and
likelihood-scoring pipeline and of the pivotal-framework utterance
simulator, taken from

  convokit/redirection/contextSelector.py
  convokit/redirection/gemmaLikelihoodModel.py
  convokit/pivotal_framework/simulator/utteranceSimulator.py

Fallible Python code is embedded as functions into `Except PyErr`, so a
statement that a call raises a given exception is a statement about the
returned `Except.error` value.  Machinery owned by external collaborators
(the corpus API, the tokenizer, the language model, the pluggable
simulator model) is either passed in as a parameter or modelled from the
specification where noted.
-/

namespace ConvoKit

/-- Python runtime exceptions that the embedded code can raise:
`assert` failures, lookups of unbound names, and type errors such as
iterating a non-iterable or calling a non-callable. -/
inductive PyErr where
  | assertionError : PyErr
  | nameError : String → PyErr
  | typeError : String → PyErr
deriving Repr, DecidableEq

/-- An utterance as the corpus hands it to this code: a stable id, its
text, the speaker role stored under the metadata key "role", and the
rest of its metadata map (used by the utterance simulator; modelled as a
lookup table read through `List.lookup`). -/
structure Utterance where
  id : String
  text : String
  role : String
  meta : List (String × Option String)
deriving Repr, DecidableEq

/-- A conversation: an id and its utterances, already in chronological
order. -/
structure Conversation where
  id : String
  utts : List Utterance
deriving Repr, DecidableEq

/-- Modelled from the spec: the corpus collaborator "must expose, per
conversation, a chronologically ordered list of utterances" (§6); the
`Conversation` value carries that list directly. -/
def Conversation.get_chronological_utterance_list (convo : Conversation) :
    List Utterance :=
  convo.utts

/-- `list({utt.meta["role"] for utt in utts})`: the distinct roles of a
conversation.  Python's set iteration order is unspecified; the embedding
deduplicates the role list, and the code settled here only ever consults
the length of this list, which does not depend on the order. -/
def conversationRoles (convo : Conversation) : List String :=
  ((convo.get_chronological_utterance_list).map (·.role)).dedup

/-- Modelled from the spec: `default_speaker_prefixes` lives in
convokit/redirection/preprocessing.py, which is not among the sources.
Per §3 it builds, from the conversation's distinct roles, a short textual
marker unique to each role; one marker per role, by position. -/
def default_speaker_prefixes (roles : List String) : List String :=
  (List.range roles.length).map
    (fun i => "Speaker " ++ (Char.ofNat (65 + i % 26)).toString ++ ": ")

/-- Embeds `default_previous_context_selector` (contextSelector.py).
The function computes the role list, the speaker markers and the
role-to-marker table, and asserts that there are exactly two roles.  The
very next statement, `role_1 = role[0]`, reads the name `role`, which is
bound nowhere in the module (the role list is bound as `roles`), so every
call that passes the assert raises `NameError`; a call with a role count
other than two fails the assert first.  No entry is ever added to either
context map. -/
def default_previous_context_selector (convo : Conversation) :
    Except PyErr (List (String × List String) × List (String × List String)) :=
  let roles := conversationRoles convo
  let spk_prefixes := default_speaker_prefixes roles
  let _role_to_prefix := roles.zip spk_prefixes
  if roles.length = 2 then
    Except.error (PyErr.nameError "role")
  else
    Except.error PyErr.assertionError

/-- Embeds `default_future_context_selector` (contextSelector.py).  Its
prologue is the same as the previous-context selector's: role list,
speaker markers, role-to-marker table, `assert len(roles) == 2`, and then
`role_1 = role[0]` on the unbound name `role`.  So it, too, raises
`AssertionError` when the role count is not two and `NameError`
otherwise, before its backward scan can start. -/
def default_future_context_selector (convo : Conversation) :
    Except PyErr (List (String × List String)) :=
  let roles := conversationRoles convo
  let spk_prefixes := default_speaker_prefixes roles
  let _role_to_prefix := roles.zip spk_prefixes
  if roles.length = 2 then
    Except.error (PyErr.nameError "role")
  else
    Except.error PyErr.assertionError

/-- The blank-line separator `"\n\n"` used by
`GemmaLikelihoodModel._calculate_likelihood_prob` to join a context list
into one string. -/
def blankLineSep : String :=
  String.mk [Char.ofNat 10, Char.ofNat 10]

namespace GemmaLikelihoodModel

/-- Embeds `GemmaLikelihoodModel._calculate_likelihood_prob`
(gemmaLikelihoodModel.py).  It joins the past and future context lists
with a blank-line separator and then evaluates `tokenizer.encode(...)`.
The bare name `tokenizer` is bound nowhere (the tokenizer is stored as
the instance attribute `self.tokenizer`), so every call raises
`NameError` before any encoding, concatenation, truncation, forward pass
or summation takes place; no scalar is ever returned.  Log-probabilities
are represented as rationals in the result type. -/
def calculate_likelihood_prob (past_context future_context : List String) :
    Except PyErr Rat :=
  let _past_text := String.intercalate blankLineSep past_context
  let _future_text := String.intercalate blankLineSep future_context
  Except.error (PyErr.nameError "tokenizer")

/-- Embeds `GemmaLikelihoodModel.transform` (gemmaLikelihoodModel.py).
`test_data` is the pair of the per-conversation previous-context maps and
future-context maps.  The body unpacks the pair and then runs
`for i, convo in enumerate(len(test_data))`: `len(test_data)` is the
integer 2 (the pair's length), and `enumerate` of an integer raises
`TypeError` as soon as the loop statement is evaluated, before any
conversation is processed, before any progress message is printed, and
before `verbosity` is consulted. -/
def transform
    (test_data :
      List (List (String × List String)) × List (List (String × List String)))
    (_verbosity : Nat) :
    Except PyErr (List (List (String × Rat))) :=
  let _prev_contexts := test_data.1
  let _future_contexts := test_data.2
  let _likelihoods : List (List (String × Rat)) := []
  Except.error (PyErr.typeError "int object is not iterable")

end GemmaLikelihoodModel

/-- Modelled from the spec: `ContextTuple` lives in
convokit/pivotal_framework/simulator/util.py, which is not among the
sources.  Per §3 it is an immutable record of (context: ordered prior
utterances including the current one, current_utt, future_context:
subsequent utterances or none, conversation_id). -/
structure ContextTuple where
  context : List Utterance
  current_utt : Utterance
  future_context : Option (List Utterance)
  conversation_id : String
deriving Repr, DecidableEq

/-- A corpus: its conversations.  Modelled from the spec (§6): the corpus
collaborator exposes iteration over conversations and over all
utterances. -/
structure Corpus where
  conversations : List Conversation
deriving Repr, DecidableEq

/-- `corpus.iter_utterances()`: every utterance of every conversation. -/
def Corpus.iter_utterances (corpus : Corpus) : List Utterance :=
  (corpus.conversations.map (·.utts)).flatten

/-- `utt.add_meta(key, value)`: sets the metadata key to the value,
replacing any previous binding for that key. -/
def Utterance.add_meta (utt : Utterance) (key : String) (value : Option String) :
    Utterance :=
  { utt with meta := (key, value) :: utt.meta.filter (fun p => p.1 ≠ key) }

/-- The frame returned by the pluggable simulator model's `transform`:
a pandas DataFrame indexed by utterance id, read by the code only through
`utt.id in simulations_df.index` and
`simulations_df.loc[utt.id][attribute]`.  `index` is the id list and
`loc` the row/column read. -/
structure SimulationsDf where
  index : List String
  loc : String → String → String

namespace UtteranceSimulator

/-- Embeds `UtteranceSimulator._create_context_iterator`
(utteranceSimulator.py): for every conversation and every chronological
position it builds the context tuple of the prefix up to and including
the current utterance, the current utterance, the future context (only
when requested: empty for the last position, the strict suffix
otherwise), and the conversation id, keeping the tuples with non-empty
context that the selector accepts. -/
def create_context_iterator (corpus : Corpus)
    (context_selector : ContextTuple → Bool)
    (include_future_context : Bool) : List ContextTuple :=
  (corpus.conversations.map (fun convo =>
    let chronological_utts := convo.get_chronological_utterance_list
    chronological_utts.enum.filterMap (fun p =>
      let i := p.1
      let current_utt := p.2
      let context := chronological_utts.take (i + 1)
      let future_context : Option (List Utterance) :=
        if include_future_context then
          if i = chronological_utts.length - 1 then some []
          else some (chronological_utts.drop (i + 1))
        else none
      let context_tuple : ContextTuple :=
        ⟨context, current_utt, future_context, convo.id⟩
      if context.length = 0 ∨ ¬ context_selector context_tuple then none
      else some context_tuple))).flatten

/-- Embeds `UtteranceSimulator.transform` (utteranceSimulator.py).  The
pluggable simulator model is passed in as the function `simulator_model`
from the selected context tuples and the reply attribute name to a
simulations frame (spec §9: the pipeline depends only on the model
interface).  The code builds the context iterator, obtains the frame,
and then walks every utterance of the corpus: an utterance whose id is in
the frame's index gets the frame's value for it stored under the reply
attribute, every other utterance gets the value `None` stored under that
attribute. -/
def transform
    (simulator_model : List ContextTuple → String → SimulationsDf)
    (simulated_reply_attribute_name : String)
    (corpus : Corpus)
    (context_selector : ContextTuple → Bool) : Corpus :=
  let contexts := create_context_iterator corpus context_selector false
  let simulations_df := simulator_model contexts simulated_reply_attribute_name
  { conversations := corpus.conversations.map (fun convo =>
      { convo with utts := convo.utts.map (fun utt =>
          if utt.id ∈ simulations_df.index then
            utt.add_meta simulated_reply_attribute_name
              (some (simulations_df.loc utt.id simulated_reply_attribute_name))
          else
            utt.add_meta simulated_reply_attribute_name none) }) }

end UtteranceSimulator

/-- C1: the claim says `default_previous_context_selector` emits map
entries exactly for the utterances from the point where both roles have
spoken.  On the code it instead raises `NameError` on every two-role
conversation — `role_1 = role[0]` reads the unbound name `role` — so no
maps are produced at all; here evaluated on a minimal two-role
conversation. -/
theorem C1_previous_selector_raises_on_two_role_conversation :
    default_previous_context_selector
      ⟨"c1", [⟨"u0", "hi", "r1", []⟩, ⟨"u1", "yo", "r2", []⟩]⟩ =
    Except.error (PyErr.nameError "role") := rfl

/-- C2: the claim says `GemmaLikelihoodModel.transform` returns, per
conversation, a likelihood mapping keyed by the intersection of the
previous-context and future-context maps.  On the code every call raises
`TypeError` at `enumerate(len(test_data))` — `enumerate` applied to the
integer 2 — before any conversation is processed, for all inputs and all
verbosity values. -/
theorem C2_transform_raises_type_error
    (prev_contexts future_contexts : List (List (String × List String)))
    (verbosity : Nat) :
    GemmaLikelihoodModel.transform (prev_contexts, future_contexts) verbosity =
    Except.error (PyErr.typeError "int object is not iterable") := rfl

/-- C3: the claim says overlong past+future concatenations are
left-truncated, preserving the future span, and length overflow is never
an error.  On the code `_calculate_likelihood_prob` raises `NameError`
at `tokenizer.encode` (the unbound name `tokenizer`; the attribute is
`self.tokenizer`) before any encoding or truncation happens, here
evaluated on a concrete past/future pair. -/
theorem C3_likelihood_prob_raises_before_truncation :
    GemmaLikelihoodModel.calculate_likelihood_prob
      ["long past turn one", "long past turn two"] ["future turn"] =
    Except.error (PyErr.nameError "tokenizer") := rfl

/-- C4: the claim says `_calculate_likelihood_prob` returns the sum of
exactly k per-token log-probabilities, read at the standard
next-token-prediction indices.  On the code the call raises `NameError`
at `tokenizer.encode` and never reaches the scoring loop, here evaluated
on a concrete past/future pair. -/
theorem C4_likelihood_prob_raises_before_scoring :
    GemmaLikelihoodModel.calculate_likelihood_prob ["past turn"] ["one", "two"] =
    Except.error (PyErr.nameError "tokenizer") := rfl

/-- C5: the claim relates the reference-context and actual-context
entries of every utterance id that receives entries from
`default_previous_context_selector`.  On the code no id ever receives an
entry: the selector raises `NameError` on the unbound name `role` for
every two-role conversation, here the spec's own four-utterance
scenario [A1, B1, A2, B2]. -/
theorem C5_previous_selector_never_emits_entries :
    default_previous_context_selector
      ⟨"c5", [⟨"a1", "w", "A", []⟩, ⟨"b1", "x", "B", []⟩,
              ⟨"a2", "y", "A", []⟩, ⟨"b2", "z", "B", []⟩]⟩ =
    Except.error (PyErr.nameError "role") := rfl

/-- C6: the claim says `default_future_context_selector` maps each
utterance with a later opposite-role turn to a one-element list.  On the
code the selector raises `NameError` on the unbound name `role` for
every two-role conversation, so no utterance is ever mapped, here
evaluated on a minimal two-role conversation. -/
theorem C6_future_selector_raises_on_two_role_conversation :
    default_future_context_selector
      ⟨"c6", [⟨"u0", "hi", "q1", []⟩, ⟨"u1", "yo", "q2", []⟩]⟩ =
    Except.error (PyErr.nameError "role") := rfl

/-- C7: both context selectors fail immediately, with the `assert
len(roles) == 2` assertion, on any conversation whose number of distinct
roles is not two, and the failure is the selector's result (it
propagates to the caller). -/
theorem C7_selectors_raise_without_exactly_two_roles (convo : Conversation)
    (h : (conversationRoles convo).length ≠ 2) :
    default_previous_context_selector convo = Except.error PyErr.assertionError ∧
    default_future_context_selector convo = Except.error PyErr.assertionError := by
  refine ⟨?_, ?_⟩ <;>
    simp [default_previous_context_selector, default_future_context_selector, h]

/-- Witness for C7 at a concrete one-role conversation. -/
theorem C7_selectors_raise_witness :
    (conversationRoles ⟨"c7", [⟨"u0", "solo", "only", []⟩]⟩).length ≠ 2 ∧
    (default_previous_context_selector ⟨"c7", [⟨"u0", "solo", "only", []⟩]⟩ =
        Except.error PyErr.assertionError ∧
      default_future_context_selector ⟨"c7", [⟨"u0", "solo", "only", []⟩]⟩ =
        Except.error PyErr.assertionError) :=
  ⟨by decide,
    C7_selectors_raise_without_exactly_two_roles
      ⟨"c7", [⟨"u0", "solo", "only", []⟩]⟩ (by decide)⟩

/-- C8: the claim says the scalar returned by
`_calculate_likelihood_prob` is always ≤ 0, being a sum of logarithms of
softmax probabilities.  On the code no scalar is ever returned: every
call, on every input pair, raises `NameError` on the unbound name
`tokenizer` before any probability is computed. -/
theorem C8_likelihood_prob_never_returns_a_scalar
    (past_context future_context : List String) :
    GemmaLikelihoodModel.calculate_likelihood_prob past_context future_context =
    Except.error (PyErr.nameError "tokenizer") := rfl

/-- C9: the outcome of `GemmaLikelihoodModel.transform` on a given
`test_data` is identical for any two verbosity values: the progress
printing governed by `verbosity` has no effect on the result.  (In this
code the shared outcome is degenerate — every call raises the same
`TypeError` before the loop runs, as recorded at C2 — so the two runs
coincide trivially.) -/
theorem C9_transform_ignores_verbosity
    (test_data :
      List (List (String × List String)) × List (List (String × List String)))
    (verbosity verbosity' : Nat) :
    GemmaLikelihoodModel.transform test_data verbosity =
    GemmaLikelihoodModel.transform test_data verbosity' := rfl

/-- C10: after `UtteranceSimulator.transform`, every utterance of the
corpus carries the simulated-reply metadata key: an utterance whose id is
in the simulations frame's index carries the frame's value for it, and
every other utterance carries the value `None`. -/
theorem C10_transform_annotates_every_utterance
    (simulator_model : List ContextTuple → String → SimulationsDf)
    (attr : String) (corpus : Corpus) (context_selector : ContextTuple → Bool)
    (utt : Utterance)
    (hmem : utt ∈ (UtteranceSimulator.transform simulator_model attr corpus
        context_selector).iter_utterances) :
    utt.meta.lookup attr =
      some (if utt.id ∈ (simulator_model
            (UtteranceSimulator.create_context_iterator corpus context_selector
              false) attr).index
        then some ((simulator_model
            (UtteranceSimulator.create_context_iterator corpus context_selector
              false) attr).loc utt.id attr)
        else none) := by
  simp only [UtteranceSimulator.transform, Corpus.iter_utterances,
    List.map_map, List.mem_flatten, List.mem_map, Function.comp] at hmem
  obtain ⟨l, ⟨convo, hconvo, rfl⟩, hutt⟩ := hmem
  obtain ⟨u0, hu0, rfl⟩ := List.mem_map.mp hutt
  by_cases h : u0.id ∈ (simulator_model
      (UtteranceSimulator.create_context_iterator corpus context_selector
        false) attr).index
  · simp [Utterance.add_meta, h, List.lookup]
  · simp [Utterance.add_meta, h, List.lookup]

/-- A pluggable simulator model used by the C10 witness: it reports
results for the single utterance id "u1". -/
def simulatorModelAtWitness : List ContextTuple → String → SimulationsDf :=
  fun _ _ => ⟨["u1"], fun _ _ => "simulated reply"⟩

/-- The corpus used by the C10 witness: one conversation of two
utterances. -/
def corpusAtWitness : Corpus :=
  ⟨[⟨"conv0", [⟨"u1", "hello", "r1", []⟩, ⟨"u2", "there", "r2", []⟩]⟩]⟩

/-- The context selector used by the C10 witness: accepts everything. -/
def selectorAtWitness : ContextTuple → Bool := fun _ => true

/-- Witness for C10 at a concrete corpus, simulator model and selector:
the annotated utterance "u1" is in the transformed corpus and its
metadata carries the simulated value. -/
theorem C10_transform_annotates_witness :
    ((⟨"u1", "hello", "r1", [("sim_replies", some "simulated reply")]⟩ :
        Utterance) ∈
      (UtteranceSimulator.transform simulatorModelAtWitness "sim_replies"
        corpusAtWitness selectorAtWitness).iter_utterances) ∧
    (⟨"u1", "hello", "r1", [("sim_replies", some "simulated reply")]⟩ :
        Utterance).meta.lookup "sim_replies" =
      some (if (⟨"u1", "hello", "r1",
            [("sim_replies", some "simulated reply")]⟩ : Utterance).id ∈
          (simulatorModelAtWitness
            (UtteranceSimulator.create_context_iterator corpusAtWitness
              selectorAtWitness false) "sim_replies").index
        then some ((simulatorModelAtWitness
            (UtteranceSimulator.create_context_iterator corpusAtWitness
              selectorAtWitness false) "sim_replies").loc
          (⟨"u1", "hello", "r1",
            [("sim_replies", some "simulated reply")]⟩ : Utterance).id
          "sim_replies")
        else none) :=
  ⟨by decide,
    C10_transform_annotates_every_utterance simulatorModelAtWitness
      "sim_replies" corpusAtWitness selectorAtWitness
      ⟨"u1", "hello", "r1", [("sim_replies", some "simulated reply")]⟩
      (by decide)⟩

end ConvoKit
